import Mathlib

set_option maxRecDepth 100000

/-!
Verification of `test-scraper-waits.py`.

The script imports `asyncio`, `sys`, `os`, inserts a `backend` directory at
the front of `sys.path`, defines an async function `test_scraper_timing`
consisting of 21 sequential `print` calls, and runs it with `asyncio.run`.
We embed the script as pure Lean definitions: each `print(s)` writes
`s ++ "\n"` to standard output, the whole run is a finite effect trace, and
the process exit status is 0.
-/

/-- Python `print(s)`: writes `s` followed by a newline to standard output. -/
def pyPrint (s : String) : String := s ++ "\n"

/-- Python string repetition `s * n` (source line 16 and 37: `"=" * 60`). -/
def pyStrMul (s : String) (n : Nat) : String := String.join (List.replicate n s)

/-- `os.path.join a b` for a relative second component, as used on source
line 11 with `b = "backend"`. -/
def osPathJoin (a b : String) : String := a ++ "/" ++ b

/-- The arguments of the 21 `print` calls in `test_scraper_timing`
(source lines 15-41), in source order. -/
def bodyPrints : List String :=
  [ "Testing Scraper Wait Times\n",
    pyStrMul "=" 60,
    "\nOLD Wait Strategy:",
    "  - Initial wait: 1000ms",
    "  - Scroll (2 steps @ 400ms): 800ms",
    "  - Network wait: 800ms",
    "  - Total: ~2.6 seconds",
    "\nNEW Wait Strategy:",
    "  - Initial wait: 2000ms",
    "  - Scroll (4 steps @ 800ms): 3200ms",
    "  - Network wait: 2000ms",
    "  - Total: ~7.2 seconds",
    "\nImprovement:",
    "  - 2.8x longer wait time",
    "  - More scrolling to trigger lazy-loaded content",
    "  - Better chance addresses will render before scraping",
    "\n" ++ pyStrMul "=" 60,
    "\nConfiguration updated successfully!",
    "\nTo test with real data, run your scraper against",
    "   the address validation page and check if addresses",
    "   are now being returned.\n" ]

/-- A step of an async body: a synchronous print, or a suspension point
(`await`). The body of `test_scraper_timing` never suspends. -/
inductive AsyncStep where
  | printStep (s : String)
  | awaitStep
deriving DecidableEq

/-- The coroutine body of `test_scraper_timing` (source lines 13-41):
only print steps, no suspension point. -/
def test_scraper_timing : List AsyncStep := bodyPrints.map AsyncStep.printStep

/-- Standard-output contribution of one async step. -/
def stepOutput : AsyncStep → String
  | .printStep s => pyPrint s
  | .awaitStep   => ""

/-- `asyncio.run` on a single task with no other task in the loop: the steps
execute sequentially to completion; the process then exits with status 0. -/
def asyncioRun (body : List AsyncStep) : String × Nat :=
  (String.join (body.map stepOutput), 0)

/-- The same prints executed as an ordinary synchronous procedure, with the
asynchronous wrapper omitted. -/
def syncRun (prints : List String) : String × Nat :=
  (String.join (prints.map pyPrint), 0)

/-- Whether an async body contains a suspension point. -/
def hasAwait (body : List AsyncStep) : Bool :=
  body.any fun s =>
    match s with
    | .awaitStep => true
    | _ => false

/-- The complete standard output of one run of the script. -/
def programStdout : String := (asyncioRun test_scraper_timing).1

/-- Split a character list at newline characters. -/
def splitNl : List Char → List (List Char)
  | [] => [[]]
  | c :: cs =>
    if c = '\n' then [] :: splitNl cs
    else
      match splitNl cs with
      | [] => [[c]]
      | l :: ls => (c :: l) :: ls

/-- The lines of a string (split at newline characters). -/
def linesOf (s : String) : List String := (splitNl s.data).map fun l => String.mk l

/-- The lines of the program's standard output. -/
def programLines : List String := linesOf programStdout

/-- One observable effect of executing the script. -/
inductive Effect where
  | printOut (s : String)
  | pathInsert (pos : Nat) (dir : String)
  | importMod (name : String)
  | fsWrite (path : String)
  | netSend (host : String)
deriving DecidableEq

/-- Is this effect a standard-output write? -/
def Effect.isPrintOut : Effect → Bool
  | .printOut _ => true
  | _ => false

/-- Is this effect an insertion into the module search path? -/
def Effect.isPathInsert : Effect → Bool
  | .pathInsert _ _ => true
  | _ => false

/-- Is this effect a module import? -/
def Effect.isImportMod : Effect → Bool
  | .importMod _ => true
  | _ => false

/-- Is this effect a filesystem write? -/
def Effect.isFsWrite : Effect → Bool
  | .fsWrite _ => true
  | _ => false

/-- Is this effect a network send? -/
def Effect.isNetSend : Effect → Bool
  | .netSend _ => true
  | _ => false

/-- The effect trace of one run of the script, with `d` the directory of the
script file (`os.path.dirname(__file__)`): the three imports of lines 6-8,
the `sys.path.insert(0, ...)` of line 11, then the 21 prints of the body. -/
def scriptTrace (d : String) : List Effect :=
  [ Effect.importMod "asyncio",
    Effect.importMod "sys",
    Effect.importMod "os",
    Effect.pathInsert 0 (osPathJoin d "backend") ]
  ++ bodyPrints.map Effect.printOut

/-- The effect trace of the script with the path manipulation of line 11
removed. -/
def scriptTraceNoPath (d : String) : List Effect :=
  (scriptTrace d).filter fun e => !e.isPathInsert

/-- The standard output produced by an effect trace. -/
def stdoutOf (tr : List Effect) : String :=
  String.join (tr.filterMap fun e =>
    match e with
    | .printOut s => some (pyPrint s)
    | _ => none)

/-- The module names imported by an effect trace, in order. -/
def importsOf (tr : List Effect) : List String :=
  tr.filterMap fun e =>
    match e with
    | .importMod n => some n
    | _ => none

/-- The effects occurring strictly after the first module-search-path
insertion of a trace. -/
def afterPathInsert (tr : List Effect) : List Effect :=
  (tr.dropWhile fun e => !e.isPathInsert).drop 1

/-- A run of the script as a process: given the command-line arguments and
the environment, it yields the standard output and the exit status. The
source never reads `sys.argv` nor any environment variable, so the result is
built from neither. -/
def runProgram (args : List String) (env : String → Option String) : String × Nat :=
  (programStdout, 0)

/-- Interpreter-global state: the module search path `sys.path`. -/
structure SysState where
  path : List String

/-- A run of the script threaded through interpreter state: the output does
not read the state; the only state change is the line-11 insertion of the
backend directory at position 0 of `sys.path`. -/
def runProgramS (d : String) (s : SysState) : String × SysState :=
  (programStdout, { path := osPathJoin d "backend" :: s.path })

/-- One `print` in the exception monad: it has no failure branch. -/
def printE (s : String) : Except String String := Except.ok (pyPrint s)

/-- The body of `test_scraper_timing` run in the exception monad: every step
is a print with no failure branch, so the whole body cannot raise. -/
def runBodyE : Except String String :=
  bodyPrints.foldlM (fun acc s => Except.map (fun t => acc ++ t) (printE s)) ""

/-- The separator line of the spec section-6 block: 60 `=` characters. -/
def specSep : String := String.mk (List.replicate 60 '=')

/-- The literal output block of spec section 6, line by line. -/
def specLines : List String :=
  [ "Testing Scraper Wait Times",
    "",
    specSep,
    "",
    "OLD Wait Strategy:",
    "  - Initial wait: 1000ms",
    "  - Scroll (2 steps @ 400ms): 800ms",
    "  - Network wait: 800ms",
    "  - Total: ~2.6 seconds",
    "",
    "NEW Wait Strategy:",
    "  - Initial wait: 2000ms",
    "  - Scroll (4 steps @ 800ms): 3200ms",
    "  - Network wait: 2000ms",
    "  - Total: ~7.2 seconds",
    "",
    "Improvement:",
    "  - 2.8x longer wait time",
    "  - More scrolling to trigger lazy-loaded content",
    "  - Better chance addresses will render before scraping",
    "",
    specSep,
    "",
    "Configuration updated successfully!",
    "",
    "To test with real data, run your scraper against",
    "   the address validation page and check if addresses",
    "   are now being returned." ]

/-- The literal output block of spec section 6 as a newline-terminated text. -/
def specText : String := String.intercalate "\n" specLines ++ "\n"

/-- Remove all trailing newline characters of a string. -/
def stripTrailingNewlines (s : String) : String :=
  String.mk ((s.data.reverse.dropWhile fun c => c = '\n').reverse)

/-- The separator line printed on source lines 16 and 37. -/
def sepLine : String := pyStrMul "=" 60

/-- A wait strategy as described by the printed figures: initial wait,
number of scroll steps, per-step wait, network wait, all in milliseconds. -/
structure WaitStrategy where
  initialMs : Nat
  scrollSteps : Nat
  scrollStepMs : Nat
  networkMs : Nat

/-- The OLD wait strategy figures (source lines 20-22). -/
def oldStrategy : WaitStrategy :=
  { initialMs := 1000, scrollSteps := 2, scrollStepMs := 400, networkMs := 800 }

/-- The NEW wait strategy figures (source lines 27-29). -/
def newStrategy : WaitStrategy :=
  { initialMs := 2000, scrollSteps := 4, scrollStepMs := 800, networkMs := 2000 }

/-- Total wait of a strategy in milliseconds. -/
def WaitStrategy.totalMs (w : WaitStrategy) : Nat :=
  w.initialMs + w.scrollSteps * w.scrollStepMs + w.networkMs

/-- Render a millisecond count as seconds with one decimal place. -/
def msToSecondsStr (n : Nat) : String :=
  toString (n / 1000) ++ "." ++ toString (n % 1000 / 100)

/-- `10 * a / b` rounded half-up to the nearest integer: the ratio `a / b`
in tenths, rounded to one decimal place. -/
def ratioInTenths (a b : Nat) : Nat := (10 * a + b / 2) / b

/-- Render a tenths count as a one-decimal string. -/
def tenthsStr (t : Nat) : String := toString (t / 10) ++ "." ++ toString (t % 10)

/-- C1: running the program with no arguments writes to standard output a
text that, byte-for-byte modulo trailing newlines, equals the literal block
of spec section 6 with its lines in the stated order; concretely the output
is that block followed by one extra trailing newline. -/
theorem c1_output_matches_spec_block :
    (runProgram [] fun _ => none).1 = specText ++ "\n"
    ∧ stripTrailingNewlines (runProgram [] fun _ => none).1
      = stripTrailingNewlines specText :=
  ⟨rfl, rfl⟩

/-- C2 counterexample: the run mutates interpreter-global state after all:
its effect trace contains the insertion of the backend directory at
position 0 of the module search path, and that effect is not a
standard-output write. -/
theorem c2_counterexample_path_mutated :
    Effect.pathInsert 0 (osPathJoin "." "backend") ∈ scriptTrace "."
    ∧ (Effect.pathInsert 0 (osPathJoin "." "backend")).isPrintOut = false := by
  decide

/-- C2 amended: besides standard-output writes the run performs exactly one
mutation of interpreter-global state, the insertion of the backend directory
at position 0 of the module search path, plus the three stdlib module
imports; it performs no filesystem write and no network send. -/
theorem c2_amended_effect_frame (d : String) :
    ((scriptTrace d).filter fun e =>
      !(e.isPrintOut || e.isPathInsert || e.isImportMod)) = []
    ∧ (scriptTrace d).filter Effect.isPathInsert
      = [Effect.pathInsert 0 (osPathJoin d "backend")]
    ∧ (scriptTrace d).filter Effect.isFsWrite = []
    ∧ (scriptTrace d).filter Effect.isNetSend = [] :=
  ⟨rfl, rfl, rfl, rfl⟩

/-- C3: every invocation terminates — the body is a finite sequence of
steps with no suspension point, the whole trace has exactly 25 effects —
and the exit status is 0 for all arguments and environments. -/
theorem c3_terminates_exit_zero (args : List String) (env : String → Option String)
    (d : String) :
    (runProgram args env).2 = 0
    ∧ hasAwait test_scraper_timing = false
    ∧ (scriptTrace d).length = 25 :=
  ⟨rfl, rfl, rfl⟩

/-- C4: the output does not depend on the inputs: any two runs, with any
command-line arguments and any environment assignments, produce the same
standard output and exit status. -/
theorem c4_output_independent_of_inputs (a1 a2 : List String)
    (e1 e2 : String → Option String) :
    runProgram a1 e1 = runProgram a2 e2 := rfl

/-- C4 instantiated at the spec's concrete scenario: the run with arguments
`["--foo", "bar"]` produces the same output as the run with no arguments. -/
theorem c4_foo_bar_same_output :
    runProgram ["--foo", "bar"] (fun _ => none) = runProgram [] fun _ => none := rfl

/-- C5: the program is deterministic and stateless across runs: a second
run, even started from the interpreter state left by the first, produces
the same standard output as the first, namely `programStdout`. -/
theorem c5_idempotent_across_runs (d : String) (s : SysState) :
    (runProgramS d (runProgramS d s).2).1 = (runProgramS d s).1
    ∧ (runProgramS d s).1 = programStdout :=
  ⟨rfl, rfl⟩

/-- C6: the body cannot fail: run in the exception monad, every step is a
print with no failure branch, and the whole body returns `ok` with exactly
the program's standard output. -/
theorem c6_body_cannot_fail : runBodyE = Except.ok programStdout := rfl

/-- C7: the asynchronous wrapper is a behavioural no-op: the body contains
no suspension point, and running it through the asynchronous runner yields
exactly the standard output and exit status of the same prints executed as
an ordinary synchronous procedure. -/
theorem c7_async_wrapper_noop :
    hasAwait test_scraper_timing = false
    ∧ asyncioRun test_scraper_timing = syncRun bodyPrints :=
  ⟨rfl, rfl⟩

/-- C8: each of the two separator lines of the output consists of exactly
60 `=` characters: the separator string has length 60, every character of
it is `=`, it occurs exactly twice among the output lines, at line indices
2 and 21. -/
theorem c8_separators_sixty_equals :
    sepLine.length = 60
    ∧ (sepLine.data.all fun c => c == '=') = true
    ∧ (programLines.filter fun l => l == sepLine).length = 2
    ∧ programLines.getD 2 "" = sepLine
    ∧ programLines.getD 21 "" = sepLine := by
  refine ⟨rfl, by decide, by decide, by decide, by decide⟩

/-- C9: the backend path entry is dead code: the trace after the path
insertion contains no import, the only imports are the three stdlib modules
loaded before the insertion, and removing the path manipulation leaves the
standard output unchanged. -/
theorem c9_backend_path_dead_code (d : String) :
    stdoutOf (scriptTrace d) = stdoutOf (scriptTraceNoPath d)
    ∧ stdoutOf (scriptTrace d) = programStdout
    ∧ importsOf (afterPathInsert (scriptTrace d)) = []
    ∧ importsOf (scriptTrace d) = ["asyncio", "sys", "os"] :=
  ⟨rfl, rfl, rfl, rfl⟩

/-- C10: the hard-coded derived figures are arithmetically consistent with
the itemized figures: the OLD block totals 2600 ms, rendered "2.6" seconds;
the NEW block totals 7200 ms, rendered "7.2" seconds; the per-block scroll
products match the printed 800 ms and 3200 ms; and the ratio 7200/2600
rounded to one decimal place is 2.8, matching the printed "2.8x". Each
rendered figure occurs verbatim in the program's output lines. -/
theorem c10_derived_figures_consistent :
    oldStrategy.totalMs = 2600
    ∧ msToSecondsStr oldStrategy.totalMs = "2.6"
    ∧ ("  - Total: ~" ++ msToSecondsStr oldStrategy.totalMs ++ " seconds")
        ∈ programLines
    ∧ newStrategy.totalMs = 7200
    ∧ msToSecondsStr newStrategy.totalMs = "7.2"
    ∧ ("  - Total: ~" ++ msToSecondsStr newStrategy.totalMs ++ " seconds")
        ∈ programLines
    ∧ ratioInTenths newStrategy.totalMs oldStrategy.totalMs = 28
    ∧ tenthsStr (ratioInTenths newStrategy.totalMs oldStrategy.totalMs) = "2.8"
    ∧ ("  - " ++ tenthsStr (ratioInTenths newStrategy.totalMs oldStrategy.totalMs)
        ++ "x longer wait time") ∈ programLines
    ∧ ("  - Scroll (" ++ toString oldStrategy.scrollSteps ++ " steps @ "
        ++ toString oldStrategy.scrollStepMs ++ "ms): "
        ++ toString (oldStrategy.scrollSteps * oldStrategy.scrollStepMs) ++ "ms")
        ∈ programLines
    ∧ ("  - Scroll (" ++ toString newStrategy.scrollSteps ++ " steps @ "
        ++ toString newStrategy.scrollStepMs ++ "ms): "
        ++ toString (newStrategy.scrollSteps * newStrategy.scrollStepMs) ++ "ms")
        ∈ programLines := by
  refine ⟨rfl, by decide, by decide, rfl, by decide, by decide, by decide,
    by decide, by decide, by decide, by decide⟩
